import Mathlib

/-!
Shallow embedding of the pulpería restaurant-management system
(models and services from src/models and src/services).

Python floats are modelled as exact rationals (ℚ), Python dicts as
insertion-ordered association lists, and raised exceptions as explicit
error results.  Nondeterministic uuid4 identifiers are taken as
parameters.  File persistence (JSON load/save) has no observable effect
on the in-memory collections and is omitted.
-/

namespace Pulperia

/-- Estados de un pedido (src/models/pedido.py, class EstadoPedido). -/
inductive EstadoPedido where
  | PENDIENTE
  | EN_PREPARACION
  | LISTO
  | COBRADO
  | CANCELADO
deriving DecidableEq, Repr

/-- String value of each state, as in the Python Enum. -/
def EstadoPedido.value : EstadoPedido → String
  | .PENDIENTE => "PENDIENTE"
  | .EN_PREPARACION => "EN_PREPARACION"
  | .LISTO => "LISTO"
  | .COBRADO => "COBRADO"
  | .CANCELADO => "CANCELADO"

/-- Parsing a state token, `EstadoPedido(s)` in Python: `none` models the
ValueError raised on an unknown token. -/
def EstadoPedido.fromString (s : String) : Option EstadoPedido :=
  if s = "PENDIENTE" then some .PENDIENTE
  else if s = "EN_PREPARACION" then some .EN_PREPARACION
  else if s = "LISTO" then some .LISTO
  else if s = "COBRADO" then some .COBRADO
  else if s = "CANCELADO" then some .CANCELADO
  else none

/-- Ingrediente del inventario (src/models/ingrediente.py). -/
structure Ingrediente where
  id : String
  nombre : String
  unidad : String
  cantidad : ℚ
deriving DecidableEq, Repr

/-- Ingrediente.hay_suficiente: `self.cantidad >= cantidad_requerida`. -/
def Ingrediente.hay_suficiente (i : Ingrediente) (cantidad_requerida : ℚ) : Bool :=
  cantidad_requerida ≤ i.cantidad

/-- Ingrediente.descontar: subtracts, or raises ValueError (modelled as
`Except.error`) when there is not enough. -/
def Ingrediente.descontar (i : Ingrediente) (cantidad : ℚ) : Except String Ingrediente :=
  if i.hay_suficiente cantidad then
    Except.ok { i with cantidad := i.cantidad - cantidad }
  else
    Except.error ("No hay suficiente " ++ i.nombre ++ ". Disponible: "
      ++ toString i.cantidad ++ " " ++ i.unidad)

/-- Ingrediente.reponer: adds a quantity. -/
def Ingrediente.reponer (i : Ingrediente) (cantidad : ℚ) : Ingrediente :=
  { i with cantidad := i.cantidad + cantidad }

/-- The inventory dictionary `self.ingredientes` of InventarioService,
keyed by ingredient id, in insertion order. -/
abbrev Inventario : Type := List Ingrediente

/-- InventarioService.obtener_ingrediente: dictionary lookup by id. -/
def obtener_ingrediente (inv : Inventario) (ingrediente_id : String) : Option Ingrediente :=
  List.find? (fun i => i.id = ingrediente_id) inv

/-- In-place mutation of the ingredient object found in the dictionary:
replaces the entry whose id matches. -/
def reemplazar_ingrediente : Inventario → String → Ingrediente → Inventario
  | [], _, _ => []
  | i :: rest, k, nuevo =>
      if i.id = k then nuevo :: rest else i :: reemplazar_ingrediente rest k nuevo

/-- A recipe mapping, `Dict[str, float]` in Python: ingredient id to
required quantity, in insertion order. -/
abbrev Receta : Type := List (String × ℚ)

/-- One iteration of the loop of InventarioService.verificar_receta: the
shortage message produced for one recipe entry, if any. -/
def faltante_de (inv : Inventario) (p : String × ℚ) : Option String :=
  match obtener_ingrediente inv p.1 with
  | none => some ("Ingrediente " ++ p.1 ++ " no existe en inventario")
  | some ing =>
      if ing.hay_suficiente p.2 then none
      else some (ing.nombre ++ ": necesita " ++ toString p.2 ++ " " ++ ing.unidad
        ++ ", disponible " ++ toString ing.cantidad ++ " " ++ ing.unidad)

/-- InventarioService.verificar_receta: returns (hay_suficiente, faltantes). -/
def verificar_receta (inv : Inventario) (receta : Receta) : Bool × List String :=
  let faltantes := List.filterMap (faltante_de inv) receta
  (faltantes.isEmpty, faltantes)

/-- InventarioService.obtener_bajo_stock with the default threshold
`self.umbral_bajo_stock = 10.0` when `umbral` is `None`. -/
def obtener_bajo_stock (inv : Inventario) (umbral : Option ℚ) : List Ingrediente :=
  let u := umbral.getD 10
  List.filter (fun i => i.cantidad < u) inv

/-- Ítem de pedido (src/models/pedido.py, class ItemPedido). -/
structure ItemPedido where
  producto_id : String
  nombre_producto : String
  cantidad : ℤ
  precio_unitario : ℚ
deriving DecidableEq, Repr

/-- ItemPedido.subtotal: `cantidad * precio_unitario`. -/
def ItemPedido.subtotal (it : ItemPedido) : ℚ :=
  (it.cantidad : ℚ) * it.precio_unitario

/-- Pedido (src/models/pedido.py).  The uuid4 id is a parameter of order
creation; the timestamp is omitted (no claim depends on it). -/
structure Pedido where
  id : String
  tipo : String
  items : List ItemPedido
  estado : EstadoPedido
  mesa_id : Option String
  direccion_delivery : Option String
  telefono_delivery : Option String
deriving DecidableEq, Repr

/-- Pedido.calcular_total: `sum(item.subtotal() for item in self.items)`. -/
def Pedido.calcular_total (p : Pedido) : ℚ :=
  (p.items.map ItemPedido.subtotal).sum

/-- Pedido.cambiar_estado: unconditionally overwrites the state. -/
def Pedido.cambiar_estado (p : Pedido) (nuevo_estado : EstadoPedido) : Pedido :=
  { p with estado := nuevo_estado }

/-- Mesa (src/models/mesa.py). -/
structure Mesa where
  id : String
  numero : ℤ
  capacidad : ℤ
  ocupada : Bool
  pedidos_activos : List String
deriving DecidableEq, Repr

/-- Mesa.ocupar. -/
def Mesa.ocupar (m : Mesa) : Mesa := { m with ocupada := true }

/-- Mesa.liberar. -/
def Mesa.liberar (m : Mesa) : Mesa := { m with ocupada := false, pedidos_activos := [] }

/-- Mesa.agregar_pedido: occupies the table when it is free, then appends
the order id. -/
def Mesa.agregar_pedido (m : Mesa) (pedido_id : String) : Mesa :=
  let m1 := if ¬m.ocupada then m.ocupar else m
  { m1 with pedidos_activos := m1.pedidos_activos ++ [pedido_id] }

/-- Producto del menú (src/models/producto.py); the Plato/Bebida subclasses
add no behaviour relevant here beyond the shared fields. -/
structure Producto where
  id : String
  nombre : String
  precio : ℚ
  receta : Receta
deriving DecidableEq, Repr

/-- The menu dictionary of MenuService, keyed by product id. -/
abbrev Menu : Type := List Producto

/-- MenuService.obtener_producto: dictionary lookup by id. -/
def obtener_producto (menu : Menu) (producto_id : String) : Option Producto :=
  List.find? (fun p => p.id = producto_id) menu

/-- One entry of the `items_data` list built by crear_pedido_mesa /
crear_pedido_delivery from a (product id, quantity) request. -/
structure ItemData where
  producto_id : String
  nombre : String
  cantidad : ℤ
  precio : ℚ
  receta : Receta
deriving DecidableEq, Repr

/-- Conversion of `productos_cantidades` into `items_data`: any unknown
product id aborts with `none` (the "Producto no encontrado" early return). -/
def construir_items_data (menu : Menu) : List (String × ℤ) → Option (List ItemData)
  | [] => some []
  | (prod_id, cantidad) :: rest =>
      match obtener_producto menu prod_id with
      | none => none
      | some producto =>
          (construir_items_data menu rest).map
            (fun l => ⟨prod_id, producto.nombre, cantidad, producto.precio, producto.receta⟩ :: l)

/-- Dict-style accumulation `totales[k] = totales.get(k, 0) + c`: updates
the existing entry in place or appends a new one at the end. -/
def acumular : List (String × ℚ) → String → ℚ → List (String × ℚ)
  | [], k, c => [(k, c)]
  | (k2, c2) :: rest, k, c =>
      if k2 = k then (k2, c2 + c) :: rest else (k2, c2) :: acumular rest k c

/-- Inner loop of PedidosService._crear_pedido over one item's recipe:
`recetas_totales[ing_id] += cant_ing * cantidad`. -/
def acumular_receta (totales : List (String × ℚ)) (receta : Receta) (cantidad : ℤ) :
    List (String × ℚ) :=
  receta.foldl (fun t p => acumular t p.1 (p.2 * (cantidad : ℚ))) totales

/-- The `recetas_totales` dictionary accumulated over all items of the
order being created. -/
def recetas_totales (items_data : List ItemData) : List (String × ℚ) :=
  items_data.foldl (fun t d => acumular_receta t d.receta d.cantidad) []

/-- The deduction loop of PedidosService._crear_pedido: for each entry the
ingredient is looked up (a missing one is silently skipped), then
`descontar` runs; a ValueError aborts the loop, keeping the deductions
already applied (the partial-deduction gap).  Returns the error message,
if any, and the resulting inventory. -/
def descontar_totales : List (String × ℚ) → Inventario → Option String × Inventario
  | [], inv => (none, inv)
  | (ing_id, cantidad) :: rest, inv =>
      match obtener_ingrediente inv ing_id with
      | none => descontar_totales rest inv
      | some ingrediente =>
          match ingrediente.descontar cantidad with
          | Except.error e => (some e, inv)
          | Except.ok ing2 => descontar_totales rest (reemplazar_ingrediente inv ing_id ing2)

/-- Combined in-memory state of InventarioService and PedidosService:
the ingredient dictionary, the order dictionary (insertion order) and the
table dictionary. -/
structure PedidosState where
  inventario : Inventario
  pedidos : List Pedido
  mesas : List Mesa
deriving DecidableEq, Repr

/-- PedidosService.obtener_pedido: dictionary lookup by id. -/
def obtener_pedido (st : PedidosState) (pedido_id : String) : Option Pedido :=
  List.find? (fun p => p.id = pedido_id) st.pedidos

/-- Table update performed at the end of _crear_pedido:
`mesa = self.mesas.get(mesa_id)` then `mesa.agregar_pedido(pedido.id)`,
skipped when the id is absent. -/
def actualizar_mesa (mesas : List Mesa) (mesa_id pedido_id : String) : List Mesa :=
  mesas.map (fun m => if m.id = mesa_id then m.agregar_pedido pedido_id else m)

/-- Result triple (éxito, mensaje, pedido) of order creation. -/
abbrev ResultadoPedido : Type := Bool × String × Option Pedido

/-- The ItemPedido list built from `items_data` inside _crear_pedido. -/
def items_de (items_data : List ItemData) : List ItemPedido :=
  items_data.map (fun d => ⟨d.producto_id, d.nombre, d.cantidad, d.precio⟩)

/-- The Pedido object constructed by _crear_pedido (state PENDIENTE). -/
def pedido_creado (nuevo_id tipo : String) (items_data : List ItemData)
    (mesa_id direccion_delivery telefono_delivery : Option String) : Pedido :=
  ⟨nuevo_id, tipo, items_de items_data, EstadoPedido.PENDIENTE, mesa_id,
    direccion_delivery, telefono_delivery⟩

/-- The state after the success path of _crear_pedido: new inventory, the
order appended, and (for a table order) the table updated. -/
def estado_tras_exito (st : PedidosState) (inv2 : Inventario) (pedido : Pedido) :
    PedidosState :=
  { inventario := inv2,
    pedidos := st.pedidos ++ [pedido],
    mesas := match pedido.mesa_id with
      | none => st.mesas
      | some mid => actualizar_mesa st.mesas mid pedido.id }

/-- PedidosService._crear_pedido.  `nuevo_id` stands for the fresh uuid4
of the created order.  Returns the result triple and the new state. -/
def _crear_pedido (st : PedidosState) (nuevo_id tipo : String)
    (items_data : List ItemData) (mesa_id : Option String)
    (direccion_delivery telefono_delivery : Option String) :
    ResultadoPedido × PedidosState :=
  let totales := recetas_totales items_data
  if ¬totales.isEmpty ∧ ¬(verificar_receta st.inventario totales).1 then
    ((false, "Stock insuficiente: "
        ++ String.intercalate ", " (verificar_receta st.inventario totales).2, none), st)
  else
    let pedido := pedido_creado nuevo_id tipo items_data mesa_id
      direccion_delivery telefono_delivery
    match descontar_totales totales st.inventario with
    | (some e, inv2) =>
        ((false, "Error al descontar inventario: " ++ e, none),
          { st with inventario := inv2 })
    | (none, inv2) =>
        ((true, "Pedido creado correctamente", some pedido),
          estado_tras_exito st inv2 pedido)

/-- PedidosService.crear_pedido_mesa: finds the table by number, builds
`items_data` from the menu, then delegates to _crear_pedido. -/
def crear_pedido_mesa (st : PedidosState) (menu : Menu) (nuevo_id : String)
    (numero_mesa : ℤ) (productos_cantidades : List (String × ℤ)) :
    ResultadoPedido × PedidosState :=
  match List.find? (fun m => m.numero = numero_mesa) st.mesas with
  | none => ((false, "Mesa no encontrada", none), st)
  | some mesa =>
      match construir_items_data menu productos_cantidades with
      | none => ((false, "Producto no encontrado", none), st)
      | some items_data =>
          _crear_pedido st nuevo_id "mesa" items_data (some mesa.id) none none

/-- PedidosService.crear_pedido_delivery. -/
def crear_pedido_delivery (st : PedidosState) (menu : Menu) (nuevo_id : String)
    (direccion telefono : String) (productos_cantidades : List (String × ℤ)) :
    ResultadoPedido × PedidosState :=
  match construir_items_data menu productos_cantidades with
  | none => ((false, "Producto no encontrado", none), st)
  | some items_data =>
      _crear_pedido st nuevo_id "delivery" items_data none
        (some direccion) (some telefono)

/-- PedidosService.cambiar_estado_pedido: parses the token; a ValueError
(unknown token) is reported, otherwise the state is overwritten. -/
def cambiar_estado_pedido (st : PedidosState) (pedido_id nuevo_estado : String) :
    (Bool × String) × PedidosState :=
  match obtener_pedido st pedido_id with
  | none => ((false, "Pedido no encontrado"), st)
  | some _ =>
      match EstadoPedido.fromString nuevo_estado with
      | none => ((false, "Estado no válido: " ++ nuevo_estado), st)
      | some e =>
          ((true, "Estado cambiado a " ++ nuevo_estado),
            { st with pedidos :=
                st.pedidos.map (fun p => if p.id = pedido_id then p.cambiar_estado e else p) })

/-- PedidosService.confirmar_pedido. -/
def confirmar_pedido (st : PedidosState) (pedido_id : String) :
    (Bool × String) × PedidosState :=
  match obtener_pedido st pedido_id with
  | none => ((false, "Pedido no encontrado"), st)
  | some pedido =>
      if pedido.estado ≠ EstadoPedido.PENDIENTE then
        ((false, "Pedido ya está en estado " ++ pedido.estado.value), st)
      else
        ((true, "Pedido confirmado y en preparación"),
          { st with pedidos :=
              st.pedidos.map (fun p =>
                if p.id = pedido_id then p.cambiar_estado EstadoPedido.EN_PREPARACION else p) })

/-- PedidosService.listar_pedidos: `if estado:` is Python truthiness, so an
empty string also returns every order. -/
def listar_pedidos (pedidos : List Pedido) (estado : Option String) : List Pedido :=
  match estado with
  | none => pedidos
  | some s =>
      if s = "" then pedidos
      else
        match EstadoPedido.fromString s with
        | some e => pedidos.filter (fun p => p.estado = e)
        | none => []

/-- PedidosService._inicializar_mesas: ten tables, numbers 1..10, the first
six with capacity 4 and the rest with capacity 6, all free and without
orders.  `fresh` stands for the uuid4 generator. -/
def inicializar_mesas (fresh : ℕ → String) : List Mesa :=
  (List.range 10).map (fun j =>
    ⟨fresh j, (j : ℤ) + 1, if (j : ℤ) + 1 ≤ 6 then 4 else 6, false, []⟩)

/-- Factura (src/models/factura.py); uuid4 id is a parameter, timestamp
omitted. -/
structure Factura where
  id : String
  pedido_id : String
  total : ℚ
  metodo_pago : String
deriving DecidableEq, Repr

/-- Combined state seen by CajaService: the orders of its PedidosService
and its own invoice dictionary, in insertion order. -/
structure CajaState where
  pedidos : List Pedido
  facturas : List Factura
deriving DecidableEq, Repr

/-- Result triple (éxito, mensaje, factura) of CajaService.cobrar_pedido. -/
abbrev ResultadoCobro : Type := Bool × String × Option Factura

/-- CajaService.cobrar_pedido.  `factura_id` stands for the fresh uuid4 of
the created invoice. -/
def cobrar_pedido (st : CajaState) (factura_id pedido_id metodo_pago : String) :
    ResultadoCobro × CajaState :=
  match List.find? (fun p => p.id = pedido_id) st.pedidos with
  | none => ((false, "Pedido no encontrado", none), st)
  | some pedido =>
      if pedido.estado = EstadoPedido.COBRADO then
        ((false, "El pedido ya fue cobrado", none), st)
      else if pedido.estado ≠ EstadoPedido.LISTO then
        ((false, "El pedido debe estar LISTO para cobrarse (estado actual: "
            ++ pedido.estado.value ++ ")", none), st)
      else
        let factura : Factura := ⟨factura_id, pedido_id, pedido.calcular_total, metodo_pago⟩
        ((true, "Pedido cobrado correctamente", some factura),
          { pedidos := st.pedidos.map (fun p =>
              if p.id = pedido_id then p.cambiar_estado EstadoPedido.COBRADO else p),
            facturas := st.facturas ++ [factura] })

/-- Per-product accumulator entry of ReportesService.platos_mas_vendidos. -/
structure DatosProducto where
  nombre : String
  cantidad : ℤ
  ingresos : ℚ
deriving DecidableEq, Repr

/-- One step of the accumulation `contador_productos[item.producto_id]`. -/
def acumular_item (cont : List (String × DatosProducto)) (it : ItemPedido) :
    List (String × DatosProducto) :=
  match cont with
  | [] => [(it.producto_id, ⟨it.nombre_producto, it.cantidad, it.subtotal⟩)]
  | (k, d) :: rest =>
      if k = it.producto_id then
        (k, ⟨d.nombre, d.cantidad + it.cantidad, d.ingresos + it.subtotal⟩) :: rest
      else (k, d) :: acumular_item rest it

/-- The `contador_productos` dictionary over all items of charged orders. -/
def contador_productos (pedidos : List Pedido) : List (String × DatosProducto) :=
  (listar_pedidos pedidos (some EstadoPedido.COBRADO.value)).foldl
    (fun c p => p.items.foldl acumular_item c) []

/-- Python `sorted(..., key=cantidad, reverse=True)` comparison: a stable
sort placing larger accumulated quantities first. -/
def ordenPorCantidad (a b : String × DatosProducto) : Bool :=
  b.2.cantidad ≤ a.2.cantidad

/-- The sorted accumulator `productos_ordenados`. -/
def productos_ordenados (pedidos : List Pedido) : List (String × DatosProducto) :=
  (contador_productos pedidos).mergeSort ordenPorCantidad

/-- ReportesService.platos_mas_vendidos: truncation and formatting of the
sorted accumulator. -/
def platos_mas_vendidos (pedidos : List Pedido) (limite : ℕ) :
    List (String × ℤ × ℚ) :=
  ((productos_ordenados pedidos).take limite).map
    (fun p => (p.2.nombre, p.2.cantidad, p.2.ingresos))

/-- One alert entry of ReportesService.alertas_bajo_stock. -/
structure Alerta where
  id : String
  nombre : String
  cantidad_actual : ℚ
  unidad : String
  nivel : String
deriving DecidableEq, Repr

/-- ReportesService.alertas_bajo_stock: formats the low-stock ingredients,
tagging CRÍTICO strictly below 5 and BAJO otherwise. -/
def alertas_bajo_stock (inv : Inventario) (umbral : Option ℚ) : List Alerta :=
  (obtener_bajo_stock inv umbral).map (fun ing =>
    ⟨ing.id, ing.nombre, ing.cantidad, ing.unidad,
      if ing.cantidad < 5 then "CRÍTICO" else "BAJO"⟩)

/-! ### Specification-side quantities -/

/-- Accumulated quantity for a key in an association list, zero when the
key is absent. -/
def valor (l : List (String × ℚ)) (k : String) : ℚ :=
  ((List.find? (fun p => p.1 = k) l).map Prod.snd).getD 0

/-- The keys of an association list. -/
def claves (l : List (String × ℚ)) : List String := l.map Prod.fst

/-- Quantity of ingredient `k` demanded by one unit of a recipe. -/
def aporte (receta : Receta) (k : String) : ℚ :=
  ((receta.filter (fun p => p.1 = k)).map Prod.snd).sum

/-- Aggregate requirement of ingredient `k` over all items of an order:
recipe quantity per unit times item quantity, summed across items. -/
def requerido (items_data : List ItemData) (k : String) : ℚ :=
  (items_data.map (fun d => aporte d.receta k * (d.cantidad : ℚ))).sum

/-- Semantic failure of one recipe entry against the inventory: the
ingredient is missing, or its available quantity is insufficient. -/
def falla (inv : Inventario) (p : String × ℚ) : Bool :=
  match obtener_ingrediente inv p.1 with
  | none => true
  | some ing => decide (ing.cantidad < p.2)

/-! ### Lemmas about verificar_receta -/

lemma faltante_de_eq_none (inv : Inventario) (p : String × ℚ) :
    faltante_de inv p = none
      ↔ ∃ ing, obtener_ingrediente inv p.1 = some ing ∧ p.2 ≤ ing.cantidad := by
  unfold faltante_de
  cases h : obtener_ingrediente inv p.1 with
  | none => simp [h]
  | some ing =>
      by_cases hs : p.2 ≤ ing.cantidad
      · simp [Ingrediente.hay_suficiente, hs, h]
      · simp [Ingrediente.hay_suficiente, hs, h]

lemma faltante_de_isSome (inv : Inventario) (p : String × ℚ) :
    (faltante_de inv p).isSome = falla inv p := by
  unfold faltante_de falla
  cases h : obtener_ingrediente inv p.1 with
  | none => rfl
  | some ing =>
      by_cases hs : ing.hay_suficiente p.2
      · simp only [Ingrediente.hay_suficiente, decide_eq_true_eq] at hs
        simp [Ingrediente.hay_suficiente, hs, not_lt.mpr hs]
      · simp only [Ingrediente.hay_suficiente, decide_eq_true_eq] at hs
        simp [Ingrediente.hay_suficiente, hs, lt_of_not_le hs]

lemma verificar_receta_ok_iff (inv : Inventario) (receta : Receta) :
    (verificar_receta inv receta).1 = true
      ↔ ∀ p ∈ receta, ∃ ing, obtener_ingrediente inv p.1 = some ing ∧ p.2 ≤ ing.cantidad := by
  unfold verificar_receta
  simp only [List.isEmpty_iff, List.filterMap_eq_nil_iff]
  constructor
  · intro h p hp; exact (faltante_de_eq_none inv p).mp (h p hp)
  · intro h p hp; exact (faltante_de_eq_none inv p).mpr (h p hp)

/-- Claim C8: verificar_receta succeeds (ok with empty shortage list)
exactly when every recipe ingredient exists with enough stock; otherwise
it reports one shortage entry per failing recipe entry, with a dedicated
message for a missing ingredient and another for insufficient quantity. -/
theorem claim_C8 (inv : Inventario) (receta : Receta) :
    ((verificar_receta inv receta).1 = true
       ↔ ∀ p ∈ receta, ∃ ing, obtener_ingrediente inv p.1 = some ing ∧ p.2 ≤ ing.cantidad)
    ∧ ((verificar_receta inv receta).1 = true ↔ (verificar_receta inv receta).2 = [])
    ∧ ((verificar_receta inv receta).2.length = receta.countP (falla inv))
    ∧ (∀ p ∈ receta, obtener_ingrediente inv p.1 = none →
        ("Ingrediente " ++ p.1 ++ " no existe en inventario") ∈ (verificar_receta inv receta).2)
    ∧ (∀ p ∈ receta, ∀ ing, obtener_ingrediente inv p.1 = some ing → ing.cantidad < p.2 →
        (ing.nombre ++ ": necesita " ++ toString p.2 ++ " " ++ ing.unidad
          ++ ", disponible " ++ toString ing.cantidad ++ " " ++ ing.unidad)
          ∈ (verificar_receta inv receta).2) := by
  refine ⟨verificar_receta_ok_iff inv receta, ?_, ?_, ?_, ?_⟩
  · unfold verificar_receta
    simp [List.isEmpty_iff]
  · unfold verificar_receta
    rw [List.length_filterMap_eq_countP]
    exact List.countP_congr (fun p _ => by rw [faltante_de_isSome])
  · intro p hp hnone
    unfold verificar_receta
    simp only [List.mem_filterMap]
    refine ⟨p, hp, ?_⟩
    unfold faltante_de
    rw [hnone]
  · intro p hp ing hing hlt
    unfold verificar_receta
    simp only [List.mem_filterMap]
    refine ⟨p, hp, ?_⟩
    unfold faltante_de
    rw [hing]
    have hfalso : ing.hay_suficiente p.2 = false := by
      simp [Ingrediente.hay_suficiente, not_le.mpr hlt]
    simp [hfalso]

/-- Concrete inventory used by the witnesses: cheese 10 kg, bread 4 units. -/
def inv_ej : Inventario :=
  [⟨"i1", "Queso", "kg", 10⟩, ⟨"i2", "Pan", "unidades", 4⟩]

/-- Witness for C8: on the concrete inventory, a recipe asking 5 kg of i1
and 9 units of i2 fails, and the insufficient-quantity message for Pan is
reported, while the recipe asking 5 and 2 passes. -/
theorem claim_C8_witness :
    (verificar_receta inv_ej [("i1", 5), ("i2", 2)]).1 = true
    ∧ ("Pan: necesita 9 unidades, disponible 4 unidades")
        ∈ (verificar_receta inv_ej [("i1", 5), ("i2", 9)]).2 := by
  constructor
  · exact (claim_C8 inv_ej [("i1", 5), ("i2", 2)]).1.mpr (by decide)
  · have h := (claim_C8 inv_ej [("i1", 5), ("i2", 9)]).2.2.2.2
      ("i2", 9) (by decide) ⟨"i2", "Pan", "unidades", 4⟩ (by decide) (by norm_num)
    simpa using h

/-! ### Claim C1: totals are computed from price snapshots -/

lemma crear_pedido_pedido_eq (st : PedidosState) (nuevo_id tipo : String)
    (items_data : List ItemData) (mesa_id dd td : Option String) (p : Pedido)
    (h : (_crear_pedido st nuevo_id tipo items_data mesa_id dd td).1.2.2 = some p) :
    p = pedido_creado nuevo_id tipo items_data mesa_id dd td := by
  unfold _crear_pedido at h
  dsimp only at h
  split at h
  · simp at h
  · split at h
    · simp at h
    · simp at h
      exact h.symm

/-- Claim C1: an order total equals the sum over its items of quantity
times the unit-price snapshot; the snapshot is the menu price captured at
creation time; the total of a created order is a function of the captured
item data alone (hence unaffected by later menu price changes); and the
invoice created by cobrar_pedido carries exactly the order total. -/
theorem claim_C1 :
    (∀ p : Pedido, p.calcular_total
        = (p.items.map (fun it => (it.cantidad : ℚ) * it.precio_unitario)).sum)
    ∧ (∀ (menu : Menu) (pcs : List (String × ℤ)) (ds : List ItemData),
        construir_items_data menu pcs = some ds →
        ∀ d ∈ ds, ∃ producto, obtener_producto menu d.producto_id = some producto
          ∧ d.precio = producto.precio ∧ d.nombre = producto.nombre)
    ∧ (∀ st nuevo_id tipo items_data mesa_id dd td p,
        (_crear_pedido st nuevo_id tipo items_data mesa_id dd td).1.2.2 = some p →
        p.calcular_total = (items_data.map (fun d => (d.cantidad : ℚ) * d.precio)).sum)
    ∧ (∀ st factura_id pedido_id metodo_pago f,
        (cobrar_pedido st factura_id pedido_id metodo_pago).1.2.2 = some f →
        ∃ p, List.find? (fun q => q.id = pedido_id) st.pedidos = some p
          ∧ f.total = p.calcular_total) := by
  refine ⟨fun p => rfl, ?_, ?_, ?_⟩
  · intro menu pcs
    induction pcs with
    | nil =>
        intro ds h
        simp only [construir_items_data, Option.some.injEq] at h
        subst h
        simp
    | cons hd tl ih =>
        intro ds h
        rcases hd with ⟨pid, cant⟩
        simp only [construir_items_data] at h
        cases hm : obtener_producto menu pid with
        | none => rw [hm] at h; simp at h
        | some producto =>
            rw [hm] at h
            rcases Option.map_eq_some'.mp h with ⟨l, hl, hds⟩
            subst hds
            intro d hd
            rcases List.mem_cons.mp hd with hd1 | hd2
            · subst hd1
              exact ⟨producto, hm, rfl, rfl⟩
            · exact ih l hl d hd2
  · intro st nuevo_id tipo items_data mesa_id dd td p h
    rw [crear_pedido_pedido_eq st nuevo_id tipo items_data mesa_id dd td p h]
    simp only [Pedido.calcular_total, pedido_creado, items_de, List.map_map]
    rfl
  · intro st factura_id pedido_id metodo_pago f h
    unfold cobrar_pedido at h
    cases hfind : List.find? (fun q => q.id = pedido_id) st.pedidos with
    | none => rw [hfind] at h; simp at h
    | some p =>
        rw [hfind] at h
        refine ⟨p, rfl, ?_⟩
        by_cases h1 : p.estado = EstadoPedido.COBRADO
        · simp [h1] at h
        · by_cases h2 : p.estado = EstadoPedido.LISTO
          · simp [h1, h2] at h
            rw [← h]
          · simp [h1, h2] at h

/-- Concrete menu and state used by witnesses: one product with a recipe,
one without. -/
def prod_A : Producto := ⟨"pA", "Pupusa", 3, [("i1", 2), ("i2", 1)]⟩

/-- A drink without recipe. -/
def prod_B : Producto := ⟨"pB", "Cafe", 2, []⟩

/-- The example menu. -/
def menu_ej : Menu := [prod_A, prod_B]

/-- An order in state LISTO, ready to be charged. -/
def ped_listo : Pedido :=
  ⟨"p1", "mesa", [⟨"pA", "Pupusa", 2, 3⟩], EstadoPedido.LISTO, none, none, none⟩

/-- Witness for C1: charging the concrete ready order produces an invoice
whose total is the order total. -/
theorem claim_C1_witness :
    ∃ p, List.find? (fun q => q.id = "p1") (CajaState.mk [ped_listo] []).pedidos = some p
      ∧ (Factura.mk "f1" "p1" ped_listo.calcular_total "efectivo").total = p.calcular_total :=
  claim_C1.2.2.2 ⟨[ped_listo], []⟩ "f1" "p1" "efectivo"
    ⟨"f1", "p1", ped_listo.calcular_total, "efectivo"⟩ rfl

/-! ### Claim C3: cobrar_pedido succeeds exactly on LISTO orders -/

/-- Claim C3: cobrar_pedido fails without an invoice and without touching
state when the order is unknown, already COBRADO (with the dedicated
message), or in any state other than LISTO; it succeeds exactly on a
LISTO order, creating exactly one new invoice carrying the order total
and moving the order to COBRADO. -/
theorem claim_C3 (st : CajaState) (factura_id pedido_id metodo_pago : String) :
    (List.find? (fun p => p.id = pedido_id) st.pedidos = none →
      cobrar_pedido st factura_id pedido_id metodo_pago
        = ((false, "Pedido no encontrado", none), st))
    ∧ (∀ p, List.find? (fun p2 => p2.id = pedido_id) st.pedidos = some p →
        p.estado = EstadoPedido.COBRADO →
        cobrar_pedido st factura_id pedido_id metodo_pago
          = ((false, "El pedido ya fue cobrado", none), st))
    ∧ (∀ p, List.find? (fun p2 => p2.id = pedido_id) st.pedidos = some p →
        p.estado ≠ EstadoPedido.COBRADO → p.estado ≠ EstadoPedido.LISTO →
        cobrar_pedido st factura_id pedido_id metodo_pago
          = ((false, "El pedido debe estar LISTO para cobrarse (estado actual: "
              ++ p.estado.value ++ ")", none), st))
    ∧ ((cobrar_pedido st factura_id pedido_id metodo_pago).1.1 = true
        ↔ ∃ p, List.find? (fun p2 => p2.id = pedido_id) st.pedidos = some p
            ∧ p.estado = EstadoPedido.LISTO)
    ∧ ((cobrar_pedido st factura_id pedido_id metodo_pago).1.1 = false →
        (cobrar_pedido st factura_id pedido_id metodo_pago).2 = st
        ∧ (cobrar_pedido st factura_id pedido_id metodo_pago).1.2.2 = none)
    ∧ (∀ p, List.find? (fun p2 => p2.id = pedido_id) st.pedidos = some p →
        p.estado = EstadoPedido.LISTO →
        cobrar_pedido st factura_id pedido_id metodo_pago
          = ((true, "Pedido cobrado correctamente",
              some ⟨factura_id, pedido_id, p.calcular_total, metodo_pago⟩),
             ⟨st.pedidos.map (fun q =>
                if q.id = pedido_id then q.cambiar_estado EstadoPedido.COBRADO else q),
              st.facturas ++ [⟨factura_id, pedido_id, p.calcular_total, metodo_pago⟩]⟩)) := by
  refine ⟨?_, ?_, ?_, ?_, ?_, ?_⟩
  · intro h
    unfold cobrar_pedido
    rw [h]
  · intro p hp hest
    unfold cobrar_pedido
    rw [hp]
    simp [hest]
  · intro p hp h1 h2
    unfold cobrar_pedido
    rw [hp]
    simp [h1, h2]
  · unfold cobrar_pedido
    cases hp : List.find? (fun p2 => p2.id = pedido_id) st.pedidos with
    | none => simp
    | some p =>
        by_cases h1 : p.estado = EstadoPedido.COBRADO
        · simp [h1]
        · by_cases h2 : p.estado = EstadoPedido.LISTO
          · simp [h1, h2]
          · simp [h1, h2]
  · unfold cobrar_pedido
    cases hp : List.find? (fun p2 => p2.id = pedido_id) st.pedidos with
    | none => simp
    | some p =>
        by_cases h1 : p.estado = EstadoPedido.COBRADO
        · simp [h1]
        · by_cases h2 : p.estado = EstadoPedido.LISTO
          · simp [h1, h2]
          · simp [h1, h2]
  · intro p hp hest
    unfold cobrar_pedido
    rw [hp]
    have h1 : p.estado ≠ EstadoPedido.COBRADO := by rw [hest]; decide
    simp [h1, hest]

/-- Witness for C3: on the example state, charging the ready order p1
creates exactly the expected invoice and marks p1 COBRADO. -/
theorem claim_C3_witness :
    cobrar_pedido ⟨[ped_listo], []⟩ "f9" "p1" "tarjeta"
      = ((true, "Pedido cobrado correctamente",
          some ⟨"f9", "p1", ped_listo.calcular_total, "tarjeta"⟩),
         ⟨[ped_listo.cambiar_estado EstadoPedido.COBRADO],
          [⟨"f9", "p1", ped_listo.calcular_total, "tarjeta"⟩]⟩) := by
  have h := (claim_C3 ⟨[ped_listo], []⟩ "f9" "p1" "tarjeta").2.2.2.2.2
    ped_listo (by decide) (by decide)
  simpa using h

/-! ### Claim C7: cambiar_estado_pedido overwrites unconditionally -/

/-- Claim C7: on an existing order, cambiar_estado_pedido rejects any
token outside the five state values and leaves the order untouched, while
every valid token unconditionally overwrites the state whatever the
current state is, so regressions such as LISTO to PENDIENTE are allowed. -/
theorem claim_C7 (st : PedidosState) (pedido_id s : String) :
    (EstadoPedido.fromString s = none
      ↔ s ∉ ["PENDIENTE", "EN_PREPARACION", "LISTO", "COBRADO", "CANCELADO"])
    ∧ (∀ p, obtener_pedido st pedido_id = some p → EstadoPedido.fromString s = none →
        cambiar_estado_pedido st pedido_id s = ((false, "Estado no válido: " ++ s), st))
    ∧ (∀ p e, obtener_pedido st pedido_id = some p → EstadoPedido.fromString s = some e →
        cambiar_estado_pedido st pedido_id s
          = ((true, "Estado cambiado a " ++ s),
             { st with pedidos := st.pedidos.map (fun q =>
                 if q.id = pedido_id then q.cambiar_estado e else q) })) := by
  refine ⟨?_, ?_, ?_⟩
  · unfold EstadoPedido.fromString
    by_cases h1 : s = "PENDIENTE"
    · simp [h1]
    · by_cases h2 : s = "EN_PREPARACION"
      · simp [h1, h2]
      · by_cases h3 : s = "LISTO"
        · simp [h1, h2, h3]
        · by_cases h4 : s = "COBRADO"
          · simp [h1, h2, h3, h4]
          · by_cases h5 : s = "CANCELADO"
            · simp [h1, h2, h3, h4, h5]
            · simp [h1, h2, h3, h4, h5]
  · intro p hp hnone
    unfold cambiar_estado_pedido
    rw [hp, hnone]
  · intro p e hp he
    unfold cambiar_estado_pedido
    rw [hp, he]

/-- An order already in state LISTO, used to exhibit a permitted
regression. -/
def ped_listo2 : Pedido :=
  ⟨"p2", "delivery", [], EstadoPedido.LISTO, none, some "Calle Real 45", some "981-123"⟩

/-- Witness for C7: on an order that is already LISTO, the token
PENDIENTE is accepted and overwrites the state: the regression
LISTO to PENDIENTE happens. -/
theorem claim_C7_witness :
    (cambiar_estado_pedido ⟨[], [ped_listo2], []⟩ "p2" "PENDIENTE").1.1 = true
    ∧ (cambiar_estado_pedido ⟨[], [ped_listo2], []⟩ "p2" "PENDIENTE").2.pedidos
        = [ped_listo2.cambiar_estado EstadoPedido.PENDIENTE] := by
  have h := (claim_C7 ⟨[], [ped_listo2], []⟩ "p2" "PENDIENTE").2.2
    ped_listo2 EstadoPedido.PENDIENTE (by decide) (by decide)
  rw [h]
  exact ⟨rfl, by decide⟩

/-! ### Claim C6: low-stock alerts with the default threshold -/

/-- The alert built for one low-stock ingredient. -/
def alerta_de (ing : Ingrediente) : Alerta :=
  ⟨ing.id, ing.nombre, ing.cantidad, ing.unidad,
    if ing.cantidad < 5 then "CRÍTICO" else "BAJO"⟩

lemma alertas_bajo_stock_eq (inv : Inventario) (umbral : Option ℚ) :
    alertas_bajo_stock inv umbral = (obtener_bajo_stock inv umbral).map alerta_de := rfl

/-- Claim C6: with the default threshold, the alert list holds exactly the
ingredients strictly below 10; the level is CRÍTICO exactly when the
quantity is strictly below 5 and BAJO otherwise; in particular quantity 9
gives BAJO, quantity 4 gives CRÍTICO, and quantity 10 gives no alert. -/
theorem claim_C6 (inv : Inventario) :
    (∀ a, a ∈ alertas_bajo_stock inv none
      ↔ ∃ ing ∈ inv, ing.cantidad < 10 ∧ a = alerta_de ing)
    ∧ (∀ a ∈ alertas_bajo_stock inv none,
        a.cantidad_actual < 10
        ∧ (a.nivel = "CRÍTICO" ↔ a.cantidad_actual < 5)
        ∧ (a.nivel = "BAJO" ↔ 5 ≤ a.cantidad_actual))
    ∧ (∀ ing : Ingrediente, ing.cantidad = 9 →
        alertas_bajo_stock [ing] none = [⟨ing.id, ing.nombre, 9, ing.unidad, "BAJO"⟩])
    ∧ (∀ ing : Ingrediente, ing.cantidad = 4 →
        alertas_bajo_stock [ing] none = [⟨ing.id, ing.nombre, 4, ing.unidad, "CRÍTICO"⟩])
    ∧ (∀ ing : Ingrediente, ing.cantidad = 10 →
        alertas_bajo_stock [ing] none = []) := by
  refine ⟨?_, ?_, ?_, ?_, ?_⟩
  · intro a
    rw [alertas_bajo_stock_eq]
    simp only [List.mem_map, obtener_bajo_stock, Option.getD_none, List.mem_filter,
      decide_eq_true_eq]
    constructor
    · rintro ⟨ing, ⟨hmem, hlt⟩, ha⟩
      exact ⟨ing, hmem, hlt, ha.symm⟩
    · rintro ⟨ing, hmem, hlt, ha⟩
      exact ⟨ing, ⟨hmem, hlt⟩, ha.symm⟩
  · intro a ha
    rw [alertas_bajo_stock_eq] at ha
    simp only [List.mem_map, obtener_bajo_stock, Option.getD_none, List.mem_filter,
      decide_eq_true_eq] at ha
    rcases ha with ⟨ing, ⟨_, hlt⟩, ha⟩
    subst ha
    unfold alerta_de
    by_cases h5 : ing.cantidad < 5
    · simp only [if_pos h5]
      simp [h5]
      exact hlt
    · simp only [if_neg h5]
      simp [h5, not_lt.mp h5]
      exact hlt
  · intro ing h9
    unfold alertas_bajo_stock obtener_bajo_stock
    simp [List.filter_cons, h9, (by norm_num : (9:ℚ) < 10), (by norm_num : ¬(9:ℚ) < 5)]
  · intro ing h4
    unfold alertas_bajo_stock obtener_bajo_stock
    simp [List.filter_cons, h4, (by norm_num : (4:ℚ) < 10), (by norm_num : (4:ℚ) < 5)]
  · intro ing h10
    unfold alertas_bajo_stock obtener_bajo_stock
    simp [List.filter_cons, h10, (by norm_num : ¬(10:ℚ) < 10)]

/-- Witness for C6: on a concrete inventory with quantities 9, 4 and 10,
the alerts are BAJO for 9, CRÍTICO for 4, and nothing for 10. -/
theorem claim_C6_witness :
    alertas_bajo_stock [⟨"a", "Arroz", "kg", 9⟩] none
      = [⟨"a", "Arroz", 9, "kg", "BAJO"⟩]
    ∧ alertas_bajo_stock [⟨"b", "Frijol", "kg", 4⟩] none
      = [⟨"b", "Frijol", 4, "kg", "CRÍTICO"⟩]
    ∧ alertas_bajo_stock [⟨"c", "Sal", "kg", 10⟩] none = [] :=
  ⟨(claim_C6 []).2.2.1 ⟨"a", "Arroz", "kg", 9⟩ rfl,
   (claim_C6 []).2.2.2.1 ⟨"b", "Frijol", "kg", 4⟩ rfl,
   (claim_C6 []).2.2.2.2 ⟨"c", "Sal", "kg", 10⟩ rfl⟩

/-! ### Lemmas about the recipe-total accumulator -/

lemma valor_nil (k : String) : valor [] k = 0 := rfl

lemma valor_cons (k1 : String) (c1 : ℚ) (t : List (String × ℚ)) (k : String) :
    valor ((k1, c1) :: t) k = if k1 = k then c1 else valor t k := by
  unfold valor
  by_cases h : k1 = k
  · simp [List.find?_cons, h]
  · simp [List.find?_cons, h]

lemma valor_eq_zero_of_not_mem_claves {l : List (String × ℚ)} {k : String}
    (h : k ∉ claves l) : valor l k = 0 := by
  unfold valor
  rw [List.find?_eq_none.mpr]
  · rfl
  · intro p hp hpk
    exact h (List.mem_map.mpr ⟨p, hp, by simpa using hpk⟩)

lemma find?_eq_of_mem_claves {l : List (String × ℚ)} {k : String}
    (h : k ∈ claves l) : ∃ c, List.find? (fun p => p.1 = k) l = some (k, c) := by
  induction l with
  | nil => simp [claves] at h
  | cons hd tl ih =>
      rcases hd with ⟨k1, c1⟩
      by_cases h1 : k1 = k
      · subst h1
        exact ⟨c1, by simp [List.find?_cons]⟩
      · have : k ∈ claves tl := by
          rcases List.mem_cons.mp h with h2 | h2
          · exact absurd h2.symm h1
          · exact h2
        rcases ih this with ⟨c, hc⟩
        exact ⟨c, by simp [List.find?_cons, h1, hc]⟩

lemma valor_of_find? {l : List (String × ℚ)} {k : String} {c : ℚ}
    (h : List.find? (fun p => p.1 = k) l = some (k, c)) : valor l k = c := by
  unfold valor
  rw [h]
  rfl

lemma valor_acumular (t : List (String × ℚ)) (k : String) (c : ℚ) (k2 : String) :
    valor (acumular t k c) k2 = valor t k2 + (if k2 = k then c else 0) := by
  induction t with
  | nil =>
      rw [show acumular [] k c = [(k, c)] from rfl, valor_cons, valor_nil]
      by_cases h : k = k2
      · subst h; simp
      · simp [h, Ne.symm h]
  | cons hd tl ih =>
      rcases hd with ⟨k1, c1⟩
      by_cases h1 : k1 = k
      · subst h1
        rw [show acumular ((k1, c1) :: tl) k1 c = (k1, c1 + c) :: tl from by
          simp [acumular]]
        rw [valor_cons, valor_cons]
        by_cases h2 : k1 = k2
        · subst h2; simp
        · have hne : ¬k2 = k1 := fun hh => h2 hh.symm
          simp [h2, hne]
      · rw [show acumular ((k1, c1) :: tl) k c = (k1, c1) :: acumular tl k c from by
          simp [acumular, h1]]
        rw [valor_cons, valor_cons]
        by_cases h2 : k1 = k2
        · have hne : ¬k2 = k := fun hh => h1 (h2.trans hh)
          simp [h2, hne]
        · simp [h2, ih]

lemma mem_claves_acumular {t : List (String × ℚ)} {k c k2} :
    k2 ∈ claves (acumular t k c) ↔ k2 ∈ claves t ∨ k2 = k := by
  induction t with
  | nil => simp [acumular, claves]
  | cons hd tl ih =>
      rcases hd with ⟨k1, c1⟩
      by_cases h1 : k1 = k
      · subst h1
        rw [show acumular ((k1, c1) :: tl) k1 c = (k1, c1 + c) :: tl from by
          simp [acumular]]
        simp only [claves, List.map_cons, List.mem_cons]
        constructor
        · rintro (h | h)
          · exact Or.inl (Or.inl h)
          · exact Or.inl (Or.inr h)
        · rintro ((h | h) | h)
          · exact Or.inl h
          · exact Or.inr h
          · exact Or.inl h
      · rw [show acumular ((k1, c1) :: tl) k c = (k1, c1) :: acumular tl k c from by
          simp [acumular, h1]]
        simp only [claves, List.map_cons, List.mem_cons] at ih ⊢
        rw [ih]
        tauto

lemma nodup_claves_acumular {t : List (String × ℚ)} (k : String) (c : ℚ)
    (h : (claves t).Nodup) : (claves (acumular t k c)).Nodup := by
  induction t with
  | nil => simp [acumular, claves]
  | cons hd tl ih =>
      rcases hd with ⟨k1, c1⟩
      rw [claves, List.map_cons, List.nodup_cons] at h
      by_cases h1 : k1 = k
      · subst h1
        rw [show acumular ((k1, c1) :: tl) k1 c = (k1, c1 + c) :: tl from by
          simp [acumular]]
        rw [claves, List.map_cons, List.nodup_cons]
        exact ⟨h.1, h.2⟩
      · rw [show acumular ((k1, c1) :: tl) k c = (k1, c1) :: acumular tl k c from by
          simp [acumular, h1]]
        rw [claves, List.map_cons, List.nodup_cons]
        refine ⟨?_, ih h.2⟩
        intro hmem
        rcases mem_claves_acumular.mp hmem with hm | hm
        · exact h.1 hm
        · exact h1 hm

lemma acumular_receta_nil (t : List (String × ℚ)) (cant : ℤ) :
    acumular_receta t [] cant = t := rfl

lemma acumular_receta_cons (t : List (String × ℚ)) (p : String × ℚ) (rest : Receta)
    (cant : ℤ) :
    acumular_receta t (p :: rest) cant
      = acumular_receta (acumular t p.1 (p.2 * (cant : ℚ))) rest cant := rfl

lemma valor_acumular_receta (receta : Receta) (cant : ℤ) :
    ∀ (t : List (String × ℚ)) (k : String),
      valor (acumular_receta t receta cant) k
        = valor t k + aporte receta k * (cant : ℚ) := by
  induction receta with
  | nil =>
      intro t k
      simp [acumular_receta_nil, aporte]
  | cons p rest ih =>
      intro t k
      rw [acumular_receta_cons, ih, valor_acumular]
      by_cases h : p.1 = k
      · have h1 : (if k = p.1 then p.2 * (cant : ℚ) else 0) = p.2 * (cant : ℚ) := by
          simp [h]
        have h2 : aporte (p :: rest) k = p.2 + aporte rest k := by
          unfold aporte
          rw [List.filter_cons]
          simp [h]
        rw [h1, h2]
        ring
      · have h1 : (if k = p.1 then p.2 * (cant : ℚ) else 0) = 0 := by
          have hne : ¬k = p.1 := fun hh => h hh.symm
          simp [hne]
        have h2 : aporte (p :: rest) k = aporte rest k := by
          unfold aporte
          rw [List.filter_cons]
          simp [h]
        rw [h1, h2]
        ring

lemma nodup_claves_acumular_receta (receta : Receta) (cant : ℤ) :
    ∀ t, (claves t).Nodup → (claves (acumular_receta t receta cant)).Nodup := by
  induction receta with
  | nil => intro t h; exact h
  | cons p rest ih =>
      intro t h
      rw [acumular_receta_cons]
      exact ih _ (nodup_claves_acumular _ _ h)

lemma recetas_totales_nil : recetas_totales [] = [] := rfl

lemma recetas_totales_cons (d : ItemData) (rest : List ItemData) :
    ∀ t, List.foldl (fun t d => acumular_receta t d.receta d.cantidad) t (d :: rest)
      = List.foldl (fun t d => acumular_receta t d.receta d.cantidad)
          (acumular_receta t d.receta d.cantidad) rest := by
  intro t; rfl

lemma valor_foldl_items (ds : List ItemData) :
    ∀ (t : List (String × ℚ)) (k : String),
      valor (List.foldl (fun t d => acumular_receta t d.receta d.cantidad) t ds) k
        = valor t k + requerido ds k := by
  induction ds with
  | nil => intro t k; simp [requerido]
  | cons d rest ih =>
      intro t k
      rw [recetas_totales_cons, ih, valor_acumular_receta]
      unfold requerido
      simp only [List.map_cons, List.sum_cons]
      rw [show (List.map (fun d => aporte d.receta k * (d.cantidad : ℚ)) rest).sum
        = requerido rest k from rfl]
      ring

lemma valor_recetas_totales (ds : List ItemData) (k : String) :
    valor (recetas_totales ds) k = requerido ds k := by
  rw [show recetas_totales ds
    = List.foldl (fun t d => acumular_receta t d.receta d.cantidad) [] ds from rfl]
  rw [valor_foldl_items, valor_nil, zero_add]

lemma nodup_claves_foldl_items (ds : List ItemData) :
    ∀ t, (claves t).Nodup →
      (claves (List.foldl (fun t d => acumular_receta t d.receta d.cantidad) t ds)).Nodup := by
  induction ds with
  | nil => intro t h; exact h
  | cons d rest ih =>
      intro t h
      rw [recetas_totales_cons]
      exact ih _ (nodup_claves_acumular_receta _ _ _ h)

lemma nodup_claves_recetas_totales (ds : List ItemData) :
    (claves (recetas_totales ds)).Nodup := by
  rw [show recetas_totales ds
    = List.foldl (fun t d => acumular_receta t d.receta d.cantidad) [] ds from rfl]
  exact nodup_claves_foldl_items ds [] (by simp [claves])

lemma requerido_eq_zero_of_no_receta {ds : List ItemData} {k : String}
    (h : ∀ d ∈ ds, ∀ p ∈ d.receta, p.1 ≠ k) : requerido ds k = 0 := by
  unfold requerido
  apply List.sum_eq_zero
  intro x hx
  rcases List.mem_map.mp hx with ⟨d, hd, hxd⟩
  have : aporte d.receta k = 0 := by
    unfold aporte
    rw [List.filter_eq_nil_iff.mpr]
    · rfl
    · intro p hp
      simp [h d hd p hp]
  rw [← hxd, this, zero_mul]

/-! ### Lemmas about the deduction loop -/

lemma ingrediente_sub_cero (ing : Ingrediente) :
    ({ ing with cantidad := ing.cantidad - 0 } : Ingrediente) = ing := by
  cases ing
  simp

lemma obtener_ingrediente_id {inv : Inventario} {k : String} {ing : Ingrediente}
    (h : obtener_ingrediente inv k = some ing) : ing.id = k := by
  have := List.find?_some h
  simpa using this

lemma obtener_reemplazar_mismo {inv : Inventario} {k : String} {ing nuevo : Ingrediente}
    (hfind : obtener_ingrediente inv k = some ing) (hid : nuevo.id = k) :
    obtener_ingrediente (reemplazar_ingrediente inv k nuevo) k = some nuevo := by
  induction inv with
  | nil => simp [obtener_ingrediente] at hfind
  | cons i rest ih =>
      by_cases h : i.id = k
      · rw [show reemplazar_ingrediente (i :: rest) k nuevo = nuevo :: rest from by
          simp [reemplazar_ingrediente, h]]
        simp [obtener_ingrediente, List.find?_cons, hid]
      · rw [show reemplazar_ingrediente (i :: rest) k nuevo
          = i :: reemplazar_ingrediente rest k nuevo from by
          simp [reemplazar_ingrediente, h]]
        unfold obtener_ingrediente at hfind ⊢
        rw [List.find?_cons] at hfind ⊢
        simp only [h, decide_False] at hfind ⊢
        exact ih hfind

lemma obtener_reemplazar_otro {inv : Inventario} {k k2 : String} {nuevo : Ingrediente}
    (hid : nuevo.id = k) (hne : k2 ≠ k) :
    obtener_ingrediente (reemplazar_ingrediente inv k nuevo) k2
      = obtener_ingrediente inv k2 := by
  induction inv with
  | nil => rfl
  | cons i rest ih =>
      by_cases h : i.id = k
      · rw [show reemplazar_ingrediente (i :: rest) k nuevo = nuevo :: rest from by
          simp [reemplazar_ingrediente, h]]
        unfold obtener_ingrediente
        rw [List.find?_cons, List.find?_cons]
        have h1 : ¬nuevo.id = k2 := by rw [hid]; exact fun hh => hne hh.symm
        have h2 : ¬i.id = k2 := by rw [h]; exact fun hh => hne hh.symm
        simp [h1, h2]
      · rw [show reemplazar_ingrediente (i :: rest) k nuevo
          = i :: reemplazar_ingrediente rest k nuevo from by
          simp [reemplazar_ingrediente, h]]
        unfold obtener_ingrediente at ih ⊢
        rw [List.find?_cons, List.find?_cons]
        by_cases h2 : i.id = k2
        · simp [h2]
        · simp only [h2, decide_False]
          exact ih

lemma descontar_totales_cons (k : String) (c : ℚ) (rest : List (String × ℚ))
    (inv : Inventario) :
    descontar_totales ((k, c) :: rest) inv
      = match obtener_ingrediente inv k with
        | none => descontar_totales rest inv
        | some ingrediente =>
            match ingrediente.descontar c with
            | Except.error e => (some e, inv)
            | Except.ok ing2 => descontar_totales rest (reemplazar_ingrediente inv k ing2) := rfl

lemma descontar_totales_spec :
    ∀ (totales : List (String × ℚ)) (inv : Inventario),
      (claves totales).Nodup →
      (∀ p ∈ totales, ∃ ing, obtener_ingrediente inv p.1 = some ing ∧ p.2 ≤ ing.cantidad) →
      (descontar_totales totales inv).1 = none
      ∧ ∀ k, obtener_ingrediente (descontar_totales totales inv).2 k
          = (obtener_ingrediente inv k).map
              (fun ing => { ing with cantidad := ing.cantidad - valor totales k }) := by
  intro totales
  induction totales with
  | nil =>
      intro inv _ _
      refine ⟨rfl, fun k => ?_⟩
      rw [show descontar_totales [] inv = (none, inv) from rfl]
      rw [valor_nil]
      cases obtener_ingrediente inv k with
      | none => rfl
      | some ing => simp [ingrediente_sub_cero]
  | cons hd rest ih =>
      rcases hd with ⟨k, c⟩
      intro inv hnodup hpre
      obtain ⟨ing, hing, hle⟩ := hpre (k, c) (List.mem_cons_self _ _)
      have hid0 : ing.id = k := obtener_ingrediente_id hing
      have hdesc : ing.descontar c
          = Except.ok { ing with cantidad := ing.cantidad - c } := by
        unfold Ingrediente.descontar
        rw [if_pos (by simp [Ingrediente.hay_suficiente, hle])]
      have hid : ({ ing with cantidad := ing.cantidad - c } : Ingrediente).id = k := hid0
      have hstep : descontar_totales ((k, c) :: rest) inv
          = descontar_totales rest
              (reemplazar_ingrediente inv k { ing with cantidad := ing.cantidad - c }) := by
        rw [descontar_totales_cons]
        simp only [hing, hdesc]
      have hclaves : claves ((k, c) :: rest) = k :: claves rest := rfl
      have hnodup2 := List.nodup_cons.mp (hclaves ▸ hnodup)
      have hk_not_in : k ∉ claves rest := hnodup2.1
      have hnodup_rest : (claves rest).Nodup := hnodup2.2
      have hpre2 : ∀ p ∈ rest,
          ∃ ing2, obtener_ingrediente
              (reemplazar_ingrediente inv k { ing with cantidad := ing.cantidad - c }) p.1
            = some ing2 ∧ p.2 ≤ ing2.cantidad := by
        intro p hp
        have hne : p.1 ≠ k := by
          intro hh
          exact hk_not_in (hh ▸ List.mem_map.mpr ⟨p, hp, rfl⟩)
        rw [obtener_reemplazar_otro hid hne]
        exact hpre p (List.mem_cons_of_mem _ hp)
      obtain ⟨herr, hinv⟩ := ih
        (reemplazar_ingrediente inv k { ing with cantidad := ing.cantidad - c })
        hnodup_rest hpre2
      refine ⟨by rw [hstep]; exact herr, ?_⟩
      intro k2
      rw [hstep, hinv k2]
      by_cases h2 : k2 = k
      · subst h2
        rw [obtener_reemplazar_mismo hing hid]
        rw [valor_eq_zero_of_not_mem_claves hk_not_in]
        rw [valor_cons, if_pos rfl, hing]
        simp
      · rw [obtener_reemplazar_otro hid h2]
        rw [valor_cons, if_neg (fun hh => h2 hh.symm)]

/-! ### Case analysis of _crear_pedido -/

lemma crear_pedido_cases (st : PedidosState) (nid tipo : String)
    (ds : List ItemData) (mid dd td : Option String) :
    (¬(recetas_totales ds).isEmpty
      ∧ (verificar_receta st.inventario (recetas_totales ds)).1 = false
      ∧ _crear_pedido st nid tipo ds mid dd td
          = ((false, "Stock insuficiente: " ++ String.intercalate ", "
              (verificar_receta st.inventario (recetas_totales ds)).2, none), st))
    ∨ (∃ e inv2,
        ((recetas_totales ds).isEmpty = true
          ∨ (verificar_receta st.inventario (recetas_totales ds)).1 = true)
        ∧ descontar_totales (recetas_totales ds) st.inventario = (some e, inv2)
        ∧ _crear_pedido st nid tipo ds mid dd td
            = ((false, "Error al descontar inventario: " ++ e, none),
               { st with inventario := inv2 }))
    ∨ (∃ inv2,
        ((recetas_totales ds).isEmpty = true
          ∨ (verificar_receta st.inventario (recetas_totales ds)).1 = true)
        ∧ descontar_totales (recetas_totales ds) st.inventario = (none, inv2)
        ∧ _crear_pedido st nid tipo ds mid dd td
            = ((true, "Pedido creado correctamente",
                some (pedido_creado nid tipo ds mid dd td)),
               estado_tras_exito st inv2 (pedido_creado nid tipo ds mid dd td))) := by
  unfold _crear_pedido
  dsimp only
  by_cases hcond : ¬(recetas_totales ds).isEmpty = true
    ∧ ¬(verificar_receta st.inventario (recetas_totales ds)).1 = true
  · rw [if_pos hcond]
    exact Or.inl ⟨by simpa using hcond.1, by simpa using hcond.2, rfl⟩
  · rw [if_neg hcond]
    have hor : (recetas_totales ds).isEmpty = true
        ∨ (verificar_receta st.inventario (recetas_totales ds)).1 = true := by
      by_contra hno
      push_neg at hno
      exact hcond ⟨hno.1, hno.2⟩
    rcases hd : descontar_totales (recetas_totales ds) st.inventario with ⟨err, inv2⟩
    cases err with
    | some e => exact Or.inr (Or.inl ⟨e, inv2, hor, rfl, rfl⟩)
    | none => exact Or.inr (Or.inr ⟨inv2, hor, rfl, rfl⟩)

lemma verificar_ok_da_precondicion {st : PedidosState} {ds : List ItemData}
    (hok : (verificar_receta st.inventario (recetas_totales ds)).1 = true) :
    ∀ p ∈ recetas_totales ds,
      ∃ ing, obtener_ingrediente st.inventario p.1 = some ing ∧ p.2 ≤ ing.cantidad :=
  (verificar_receta_ok_iff st.inventario (recetas_totales ds)).mp hok

lemma exito_inventario (st : PedidosState) (nid tipo : String) (ds : List ItemData)
    (mid dd td : Option String)
    (h : (_crear_pedido st nid tipo ds mid dd td).1.1 = true) :
    ∀ k, obtener_ingrediente (_crear_pedido st nid tipo ds mid dd td).2.inventario k
      = (obtener_ingrediente st.inventario k).map
          (fun ing => { ing with cantidad := ing.cantidad - requerido ds k }) := by
  rcases crear_pedido_cases st nid tipo ds mid dd td with
    ⟨_, _, heq⟩ | ⟨e, inv2, _, _, heq⟩ | ⟨inv2, hor, hd, heq⟩
  · rw [heq] at h; simp at h
  · rw [heq] at h; simp at h
  · intro k
    rw [heq]
    show obtener_ingrediente inv2 k = _
    rcases hor with hemp | hok
    · have htot : recetas_totales ds = [] := List.isEmpty_iff.mp hemp
      rw [htot] at hd
      have hinv2 : inv2 = st.inventario := by
        have : (none, st.inventario) = ((none : Option String), inv2) := by
          rw [← hd]; rfl
        exact (Prod.mk.injEq _ _ _ _ ▸ this).2.symm
      have hreq : requerido ds k = 0 := by
        rw [← valor_recetas_totales, htot, valor_nil]
      rw [hinv2, hreq]
      cases obtener_ingrediente st.inventario k with
      | none => rfl
      | some ing => simp [ingrediente_sub_cero]
    · obtain ⟨-, hspec⟩ := descontar_totales_spec (recetas_totales ds) st.inventario
        (nodup_claves_recetas_totales ds) (verificar_ok_da_precondicion hok)
      rw [hd] at hspec
      have := hspec k
      rw [valor_recetas_totales] at this
      exact this

lemma exito_inventario_tres (st : PedidosState) (nid tipo : String) (ds : List ItemData)
    (mid dd td : Option String)
    (h : (_crear_pedido st nid tipo ds mid dd td).1.1 = true) :
    (∀ k, obtener_ingrediente (_crear_pedido st nid tipo ds mid dd td).2.inventario k
        = (obtener_ingrediente st.inventario k).map
            (fun ing => { ing with cantidad := ing.cantidad - requerido ds k }))
    ∧ (∀ k, requerido ds k = 0 →
        obtener_ingrediente (_crear_pedido st nid tipo ds mid dd td).2.inventario k
          = obtener_ingrediente st.inventario k)
    ∧ (∀ k, (∀ d ∈ ds, ∀ p ∈ d.receta, p.1 ≠ k) →
        obtener_ingrediente (_crear_pedido st nid tipo ds mid dd td).2.inventario k
          = obtener_ingrediente st.inventario k) := by
  have h1 := exito_inventario st nid tipo ds mid dd td h
  refine ⟨h1, ?_, ?_⟩
  · intro k hreq
    rw [h1 k, hreq]
    cases obtener_ingrediente st.inventario k with
    | none => rfl
    | some ing => simp [ingrediente_sub_cero]
  · intro k hk
    rw [h1 k, requerido_eq_zero_of_no_receta hk]
    cases obtener_ingrediente st.inventario k with
    | none => rfl
    | some ing => simp [ingrediente_sub_cero]

/-- Claim C2: when crear_pedido_mesa or crear_pedido_delivery succeeds,
every ingredient's quantity decreases by exactly the aggregate recipe
requirement (recipe quantity per unit times item quantity, summed over
the items), and ingredients not appearing in any item's recipe keep their
quantity. -/
theorem claim_C2 :
    (∀ st menu nid numero pcs (ds : List ItemData),
      construir_items_data menu pcs = some ds →
      (crear_pedido_mesa st menu nid numero pcs).1.1 = true →
      (∀ k, obtener_ingrediente (crear_pedido_mesa st menu nid numero pcs).2.inventario k
          = (obtener_ingrediente st.inventario k).map
              (fun ing => { ing with cantidad := ing.cantidad - requerido ds k }))
      ∧ (∀ k, (∀ d ∈ ds, ∀ p ∈ d.receta, p.1 ≠ k) →
          obtener_ingrediente (crear_pedido_mesa st menu nid numero pcs).2.inventario k
            = obtener_ingrediente st.inventario k))
    ∧ (∀ st menu nid direccion telefono pcs (ds : List ItemData),
      construir_items_data menu pcs = some ds →
      (crear_pedido_delivery st menu nid direccion telefono pcs).1.1 = true →
      (∀ k, obtener_ingrediente
            (crear_pedido_delivery st menu nid direccion telefono pcs).2.inventario k
          = (obtener_ingrediente st.inventario k).map
              (fun ing => { ing with cantidad := ing.cantidad - requerido ds k }))
      ∧ (∀ k, (∀ d ∈ ds, ∀ p ∈ d.receta, p.1 ≠ k) →
          obtener_ingrediente
              (crear_pedido_delivery st menu nid direccion telefono pcs).2.inventario k
            = obtener_ingrediente st.inventario k)) := by
  constructor
  · intro st menu nid numero pcs ds hds hsuc
    cases hmesa : List.find? (fun m => m.numero = numero) st.mesas with
    | none =>
        unfold crear_pedido_mesa at hsuc
        rw [hmesa] at hsuc
        simp at hsuc
    | some mesa =>
        have heq : crear_pedido_mesa st menu nid numero pcs
            = _crear_pedido st nid "mesa" ds (some mesa.id) none none := by
          unfold crear_pedido_mesa
          rw [hmesa, hds]
        rw [heq] at hsuc ⊢
        have h3 := exito_inventario_tres st nid "mesa" ds (some mesa.id) none none hsuc
        exact ⟨h3.1, h3.2.2⟩
  · intro st menu nid direccion telefono pcs ds hds hsuc
    have heq : crear_pedido_delivery st menu nid direccion telefono pcs
        = _crear_pedido st nid "delivery" ds none (some direccion) (some telefono) := by
      unfold crear_pedido_delivery
      rw [hds]
    rw [heq] at hsuc ⊢
    have h3 := exito_inventario_tres st nid "delivery" ds none
      (some direccion) (some telefono) hsuc
    exact ⟨h3.1, h3.2.2⟩

/-- Items-data request for the witnesses: two coffees, no recipe. -/
def ds_cafe : List ItemData := [⟨"pB", "Cafe", 2, 2, []⟩]

/-- A one-table state over the example inventory. -/
def st_ej : PedidosState := ⟨inv_ej, [], [⟨"m1", 1, 4, false, []⟩]⟩

/-- Witness for C2: ordering two coffees (empty recipe) at table 1
succeeds and leaves the quantity of every example ingredient exactly
diminished by its (zero) aggregate requirement. -/
theorem claim_C2_witness :
    (∀ k, obtener_ingrediente (crear_pedido_mesa st_ej menu_ej "ped1" 1 [("pB", 2)]).2.inventario k
        = (obtener_ingrediente st_ej.inventario k).map
            (fun ing => { ing with cantidad := ing.cantidad - requerido ds_cafe k }))
    ∧ (∀ k, (∀ d ∈ ds_cafe, ∀ p ∈ d.receta, p.1 ≠ k) →
        obtener_ingrediente (crear_pedido_mesa st_ej menu_ej "ped1" 1 [("pB", 2)]).2.inventario k
          = obtener_ingrediente st_ej.inventario k) :=
  claim_C2.1 st_ej menu_ej "ped1" 1 [("pB", 2)] ds_cafe (by decide) (by decide)

/-! ### Claim C9: the deduction-error branch is unreachable -/

/-- Claim C9: once the aggregate verification succeeds, every descontar
call in the deduction loop succeeds, so the ValueError branch of
_crear_pedido is unreachable; consequently a failing _crear_pedido can
only be the stock-insufficiency return, which leaves the whole state
(inventory included) unchanged: the deduction is all-or-nothing. -/
theorem claim_C9 :
    (∀ (inv : Inventario) (ds : List ItemData),
      (verificar_receta inv (recetas_totales ds)).1 = true →
      (descontar_totales (recetas_totales ds) inv).1 = none)
    ∧ (∀ st nid tipo (ds : List ItemData) mid dd td,
        (_crear_pedido st nid tipo ds mid dd td).1.1 = false →
        (_crear_pedido st nid tipo ds mid dd td).2 = st
        ∧ (_crear_pedido st nid tipo ds mid dd td).1.2.1
            = "Stock insuficiente: " ++ String.intercalate ", "
                (verificar_receta st.inventario (recetas_totales ds)).2
        ∧ (_crear_pedido st nid tipo ds mid dd td).1.2.2 = none) := by
  have clave : ∀ (inv : Inventario) (ds : List ItemData),
      (verificar_receta inv (recetas_totales ds)).1 = true →
      (descontar_totales (recetas_totales ds) inv).1 = none := by
    intro inv ds hok
    exact (descontar_totales_spec (recetas_totales ds) inv
      (nodup_claves_recetas_totales ds)
      ((verificar_receta_ok_iff inv (recetas_totales ds)).mp hok)).1
  refine ⟨clave, ?_⟩
  intro st nid tipo ds mid dd td h
  rcases crear_pedido_cases st nid tipo ds mid dd td with
    ⟨_, _, heq⟩ | ⟨e, inv2, hor, hd, heq⟩ | ⟨inv2, _, _, heq⟩
  · rw [heq]
    exact ⟨rfl, rfl, rfl⟩
  · exfalso
    rcases hor with hemp | hok
    · have htot : recetas_totales ds = [] := List.isEmpty_iff.mp hemp
      rw [htot] at hd
      exact Option.noConfusion (congrArg Prod.fst hd)
    · have := clave st.inventario ds hok
      rw [hd] at this
      exact Option.noConfusion this
  · rw [heq] at h
    simp at h

/-- Witness for C9: on the example inventory and the coffee order (whose
aggregate recipe is empty, so verification trivially passes), the
deduction loop reports no error. -/
theorem claim_C9_witness :
    (descontar_totales (recetas_totales ds_cafe) inv_ej).1 = none :=
  claim_C9.1 inv_ej ds_cafe (by decide)

/-! ### Claim C4: stock shortage leaves the state untouched -/

lemma crear_pedido_falla_stock (st : PedidosState) (nid tipo : String)
    (ds : List ItemData) (mid dd td : Option String)
    (h : ∃ k ing, obtener_ingrediente st.inventario k = some ing
      ∧ 0 ≤ ing.cantidad ∧ ing.cantidad < requerido ds k) :
    (_crear_pedido st nid tipo ds mid dd td).1.1 = false
    ∧ (_crear_pedido st nid tipo ds mid dd td).2 = st := by
  obtain ⟨k, ing, hing, hpos, hlt⟩ := h
  have hreqne : requerido ds k ≠ 0 := by
    intro h0
    rw [h0] at hlt
    exact absurd (lt_of_le_of_lt hpos hlt) (lt_irrefl 0)
  have hmem : k ∈ claves (recetas_totales ds) := by
    by_contra hnot
    exact hreqne (by
      rw [← valor_recetas_totales]
      exact valor_eq_zero_of_not_mem_claves hnot)
  obtain ⟨c, hfind⟩ := find?_eq_of_mem_claves hmem
  have hc : c = requerido ds k := by
    rw [← valor_recetas_totales]
    exact (valor_of_find? hfind).symm
  have hmem2 : (k, c) ∈ recetas_totales ds := List.mem_of_find?_eq_some hfind
  have hfalla : ¬(verificar_receta st.inventario (recetas_totales ds)).1 = true := by
    intro hok
    obtain ⟨ing2, hing2, hle2⟩ :=
      (verificar_receta_ok_iff st.inventario (recetas_totales ds)).mp hok (k, c) hmem2
    rw [hing] at hing2
    have : ing2 = ing := (Option.some.inj hing2).symm
    subst this
    rw [hc] at hle2
    exact absurd hlt (not_lt.mpr hle2)
  have hne : ¬(recetas_totales ds).isEmpty = true := by
    intro hemp
    rw [List.isEmpty_iff.mp hemp] at hmem2
    exact List.not_mem_nil _ hmem2
  rcases crear_pedido_cases st nid tipo ds mid dd td with
    ⟨_, _, heq⟩ | ⟨e, inv2, hor, _, _⟩ | ⟨inv2, hor, _, _⟩
  · rw [heq]
    exact ⟨rfl, rfl⟩
  · rcases hor with hemp | hok
    · exact absurd hemp hne
    · exact absurd hok hfalla
  · rcases hor with hemp | hok
    · exact absurd hemp hne
    · exact absurd hok hfalla

/-- Claim C4: an order-creation request whose aggregate requirement
exceeds available stock for some ingredient fails and mutates nothing:
the resulting state (inventory, orders, tables) is exactly the input
state. -/
theorem claim_C4 :
    (∀ st menu nid numero pcs (ds : List ItemData),
      construir_items_data menu pcs = some ds →
      (∃ k ing, obtener_ingrediente st.inventario k = some ing
        ∧ 0 ≤ ing.cantidad ∧ ing.cantidad < requerido ds k) →
      (crear_pedido_mesa st menu nid numero pcs).1.1 = false
      ∧ (crear_pedido_mesa st menu nid numero pcs).2 = st
      ∧ (crear_pedido_mesa st menu nid numero pcs).2.inventario = st.inventario
      ∧ (crear_pedido_mesa st menu nid numero pcs).2.pedidos = st.pedidos
      ∧ (crear_pedido_mesa st menu nid numero pcs).2.mesas = st.mesas)
    ∧ (∀ st menu nid direccion telefono pcs (ds : List ItemData),
      construir_items_data menu pcs = some ds →
      (∃ k ing, obtener_ingrediente st.inventario k = some ing
        ∧ 0 ≤ ing.cantidad ∧ ing.cantidad < requerido ds k) →
      (crear_pedido_delivery st menu nid direccion telefono pcs).1.1 = false
      ∧ (crear_pedido_delivery st menu nid direccion telefono pcs).2 = st) := by
  constructor
  · intro st menu nid numero pcs ds hds hshort
    cases hmesa : List.find? (fun m => m.numero = numero) st.mesas with
    | none =>
        have heq : crear_pedido_mesa st menu nid numero pcs
            = ((false, "Mesa no encontrada", none), st) := by
          unfold crear_pedido_mesa
          rw [hmesa]
        rw [heq]
        exact ⟨rfl, rfl, rfl, rfl, rfl⟩
    | some mesa =>
        have heq : crear_pedido_mesa st menu nid numero pcs
            = _crear_pedido st nid "mesa" ds (some mesa.id) none none := by
          unfold crear_pedido_mesa
          rw [hmesa, hds]
        rw [heq]
        obtain ⟨h1, h2⟩ := crear_pedido_falla_stock st nid "mesa" ds
          (some mesa.id) none none hshort
        exact ⟨h1, h2, by rw [h2], by rw [h2], by rw [h2]⟩
  · intro st menu nid direccion telefono pcs ds hds hshort
    have heq : crear_pedido_delivery st menu nid direccion telefono pcs
        = _crear_pedido st nid "delivery" ds none (some direccion) (some telefono) := by
      unfold crear_pedido_delivery
      rw [hds]
    rw [heq]
    exact crear_pedido_falla_stock st nid "delivery" ds none
      (some direccion) (some telefono) hshort

/-- Items-data built from the example menu for five pupusas (recipe:
2 of i1 and 1 of i2 per unit). -/
def ds_pupusas : List ItemData := [⟨"pA", "Pupusa", 5, 3, [("i1", 2), ("i2", 1)]⟩]

/-- Witness for C4: five pupusas need 5 units of Pan but only 4 are in
stock, so the table order fails and the state is returned unchanged. -/
theorem claim_C4_witness :
    (crear_pedido_mesa st_ej menu_ej "ped1" 1 [("pA", 5)]).1.1 = false
    ∧ (crear_pedido_mesa st_ej menu_ej "ped1" 1 [("pA", 5)]).2 = st_ej
    ∧ (crear_pedido_mesa st_ej menu_ej "ped1" 1 [("pA", 5)]).2.inventario = st_ej.inventario
    ∧ (crear_pedido_mesa st_ej menu_ej "ped1" 1 [("pA", 5)]).2.pedidos = st_ej.pedidos
    ∧ (crear_pedido_mesa st_ej menu_ej "ped1" 1 [("pA", 5)]).2.mesas = st_ej.mesas :=
  claim_C4.1 st_ej menu_ej "ped1" 1 [("pA", 5)] ds_pupusas (by decide)
    ⟨"i2", ⟨"i2", "Pan", "unidades", 4⟩, by decide, by decide, by
      show (4 : ℚ) < requerido ds_pupusas "i2"
      norm_num [requerido, ds_pupusas, aporte, List.filter_cons,
        (by decide : ¬("i1" : String) = "i2")]⟩

/-! ### Claim C10: table-occupancy invariant -/

/-- The invariant: a table with active orders is marked occupied. -/
def mesa_invariante (m : Mesa) : Prop := m.pedidos_activos ≠ [] → m.ocupada = true

lemma agregar_pedido_ocupada (m : Mesa) (pid : String) :
    (m.agregar_pedido pid).ocupada = true := by
  unfold Mesa.agregar_pedido Mesa.ocupar
  by_cases h : m.ocupada <;> simp [h]

lemma agregar_pedido_activos (m : Mesa) (pid : String) :
    (m.agregar_pedido pid).pedidos_activos = m.pedidos_activos ++ [pid] := by
  unfold Mesa.agregar_pedido Mesa.ocupar
  by_cases h : m.ocupada <;> simp [h]

lemma actualizar_mesa_invariante {mesas : List Mesa} {mid pid : String}
    (h : ∀ m ∈ mesas, mesa_invariante m) :
    ∀ m ∈ actualizar_mesa mesas mid pid, mesa_invariante m := by
  intro m hm
  rcases List.mem_map.mp hm with ⟨m0, hm0, hef⟩
  rw [← hef]
  by_cases hid : m0.id = mid
  · rw [if_pos hid]
    intro _
    exact agregar_pedido_ocupada m0 pid
  · rw [if_neg hid]
    exact h m0 hm0

lemma crear_pedido_preserva_mesas (st : PedidosState) (nid tipo : String)
    (ds : List ItemData) (mid dd td : Option String)
    (h : ∀ m ∈ st.mesas, mesa_invariante m) :
    ∀ m ∈ (_crear_pedido st nid tipo ds mid dd td).2.mesas, mesa_invariante m := by
  rcases crear_pedido_cases st nid tipo ds mid dd td with
    ⟨_, _, heq⟩ | ⟨e, inv2, _, _, heq⟩ | ⟨inv2, _, _, heq⟩
  · rw [heq]; exact h
  · rw [heq]; exact h
  · rw [heq]
    show ∀ m ∈ (estado_tras_exito st inv2 (pedido_creado nid tipo ds mid dd td)).mesas,
      mesa_invariante m
    unfold estado_tras_exito
    cases mid with
    | none => exact h
    | some m2 => exact actualizar_mesa_invariante h

lemma cambiar_estado_mesas (st : PedidosState) (pid s : String) :
    (cambiar_estado_pedido st pid s).2.mesas = st.mesas := by
  unfold cambiar_estado_pedido
  cases h1 : obtener_pedido st pid with
  | none => rfl
  | some p =>
      cases h2 : EstadoPedido.fromString s with
      | none => rfl
      | some e => rfl

lemma confirmar_pedido_mesas (st : PedidosState) (pid : String) :
    (confirmar_pedido st pid).2.mesas = st.mesas := by
  unfold confirmar_pedido
  cases h1 : obtener_pedido st pid with
  | none => rfl
  | some p =>
      dsimp only
      split <;> rfl

/-- Claim C10: seeded tables are free with no orders; agregar_pedido
marks the table occupied and appends the order id; liberar clears the
flag and the list together; and every state-mutating Orders Service
operation preserves the invariant that a table with active orders is
occupied. -/
theorem claim_C10 :
    (∀ (fresh : ℕ → String), ∀ m ∈ inicializar_mesas fresh,
        m.ocupada = false ∧ m.pedidos_activos = [])
    ∧ (∀ (m : Mesa) (pid : String), (m.agregar_pedido pid).ocupada = true
        ∧ (m.agregar_pedido pid).pedidos_activos = m.pedidos_activos ++ [pid])
    ∧ (∀ m : Mesa, m.liberar.ocupada = false ∧ m.liberar.pedidos_activos = [])
    ∧ (∀ st menu nid numero pcs, (∀ m ∈ st.mesas, mesa_invariante m) →
        ∀ m ∈ (crear_pedido_mesa st menu nid numero pcs).2.mesas, mesa_invariante m)
    ∧ (∀ st menu nid direccion telefono pcs, (∀ m ∈ st.mesas, mesa_invariante m) →
        ∀ m ∈ (crear_pedido_delivery st menu nid direccion telefono pcs).2.mesas,
          mesa_invariante m)
    ∧ (∀ st pid s, (∀ m ∈ st.mesas, mesa_invariante m) →
        ∀ m ∈ (cambiar_estado_pedido st pid s).2.mesas, mesa_invariante m)
    ∧ (∀ st pid, (∀ m ∈ st.mesas, mesa_invariante m) →
        ∀ m ∈ (confirmar_pedido st pid).2.mesas, mesa_invariante m) := by
  refine ⟨?_, ?_, ?_, ?_, ?_, ?_, ?_⟩
  · intro fresh m hm
    rcases List.mem_map.mp hm with ⟨j, _, hj⟩
    rw [← hj]
    exact ⟨rfl, rfl⟩
  · intro m pid
    exact ⟨agregar_pedido_ocupada m pid, agregar_pedido_activos m pid⟩
  · intro m
    exact ⟨rfl, rfl⟩
  · intro st menu nid numero pcs h
    cases hmesa : List.find? (fun m => m.numero = numero) st.mesas with
    | none =>
        have heq : crear_pedido_mesa st menu nid numero pcs
            = ((false, "Mesa no encontrada", none), st) := by
          unfold crear_pedido_mesa
          rw [hmesa]
        rw [heq]
        exact h
    | some mesa =>
        cases hds : construir_items_data menu pcs with
        | none =>
            have heq : crear_pedido_mesa st menu nid numero pcs
                = ((false, "Producto no encontrado", none), st) := by
              unfold crear_pedido_mesa
              rw [hmesa, hds]
            rw [heq]
            exact h
        | some ds =>
            have heq : crear_pedido_mesa st menu nid numero pcs
                = _crear_pedido st nid "mesa" ds (some mesa.id) none none := by
              unfold crear_pedido_mesa
              rw [hmesa, hds]
            rw [heq]
            exact crear_pedido_preserva_mesas st nid "mesa" ds (some mesa.id) none none h
  · intro st menu nid direccion telefono pcs h
    cases hds : construir_items_data menu pcs with
    | none =>
        have heq : crear_pedido_delivery st menu nid direccion telefono pcs
            = ((false, "Producto no encontrado", none), st) := by
          unfold crear_pedido_delivery
          rw [hds]
        rw [heq]
        exact h
    | some ds =>
        have heq : crear_pedido_delivery st menu nid direccion telefono pcs
            = _crear_pedido st nid "delivery" ds none (some direccion) (some telefono) := by
          unfold crear_pedido_delivery
          rw [hds]
        rw [heq]
        exact crear_pedido_preserva_mesas st nid "delivery" ds none
          (some direccion) (some telefono) h
  · intro st pid s h
    rw [cambiar_estado_mesas]
    exact h
  · intro st pid h
    rw [confirmar_pedido_mesas]
    exact h

/-- Witness for C10: creating the coffee order at table 1 of the example
state keeps every table satisfying the occupancy invariant. -/
theorem claim_C10_witness :
    ∀ m ∈ (crear_pedido_mesa st_ej menu_ej "ped1" 1 [("pB", 2)]).2.mesas,
      mesa_invariante m :=
  claim_C10.2.2.2.1 st_ej menu_ej "ped1" 1 [("pB", 2)] (by
    intro m hm
    have hm2 : m = ⟨"m1", 1, 4, false, []⟩ := by simpa [st_ej] using hm
    subst hm2
    intro hne
    exact absurd rfl hne)

/-! ### Claim C5: top-sold products -/

lemma listar_cobrados (pedidos : List Pedido) :
    listar_pedidos pedidos (some EstadoPedido.COBRADO.value)
      = pedidos.filter (fun p => p.estado = EstadoPedido.COBRADO) := rfl

lemma contador_append_no_cobrado (pedidos : List Pedido) (p : Pedido)
    (h : p.estado ≠ EstadoPedido.COBRADO) :
    contador_productos (pedidos ++ [p]) = contador_productos pedidos := by
  unfold contador_productos
  rw [listar_cobrados, listar_cobrados, List.filter_append]
  rw [show List.filter (fun p => decide (p.estado = EstadoPedido.COBRADO)) [p] = []
    from by simp [List.filter_cons, h]]
  rw [List.append_nil]

/-- Accumulated quantity stored for product `k`, zero when absent. -/
def cantidadEn (cont : List (String × DatosProducto)) (k : String) : ℤ :=
  ((List.find? (fun e => e.1 = k) cont).map (fun e => e.2.cantidad)).getD 0

/-- Accumulated revenue stored for product `k`, zero when absent. -/
def ingresosEn (cont : List (String × DatosProducto)) (k : String) : ℚ :=
  ((List.find? (fun e => e.1 = k) cont).map (fun e => e.2.ingresos)).getD 0

/-- Total quantity of product `k` in a list of order items. -/
def cantidad_vendida (items : List ItemPedido) (k : String) : ℤ :=
  ((items.filter (fun it => it.producto_id = k)).map ItemPedido.cantidad).sum

/-- Total revenue of product `k` in a list of order items. -/
def ingresos_de (items : List ItemPedido) (k : String) : ℚ :=
  ((items.filter (fun it => it.producto_id = k)).map ItemPedido.subtotal).sum

lemma datos_acumular_item (cont : List (String × DatosProducto)) (it : ItemPedido)
    (k : String) :
    cantidadEn (acumular_item cont it) k
      = cantidadEn cont k + (if it.producto_id = k then it.cantidad else 0)
    ∧ ingresosEn (acumular_item cont it) k
      = ingresosEn cont k + (if it.producto_id = k then it.subtotal else 0) := by
  induction cont with
  | nil =>
      rw [show acumular_item [] it
        = [(it.producto_id, ⟨it.nombre_producto, it.cantidad, it.subtotal⟩)] from rfl]
      unfold cantidadEn ingresosEn
      by_cases h : it.producto_id = k
      · simp [List.find?_cons, h]
      · simp [List.find?_cons, h]
  | cons hd tl ih =>
      rcases hd with ⟨k1, d⟩
      by_cases h1 : k1 = it.producto_id
      · rw [show acumular_item ((k1, d) :: tl) it
          = (k1, ⟨d.nombre, d.cantidad + it.cantidad, d.ingresos + it.subtotal⟩) :: tl
          from by simp [acumular_item, h1]]
        unfold cantidadEn ingresosEn
        by_cases h2 : k1 = k
        · have h3 : it.producto_id = k := h1 ▸ h2
          simp [List.find?_cons, h2, h3]
        · have h3 : ¬it.producto_id = k := fun hh => h2 (h1.symm ▸ hh)
          simp [List.find?_cons, h2, h3]
      · rw [show acumular_item ((k1, d) :: tl) it = (k1, d) :: acumular_item tl it
          from by simp [acumular_item, h1]]
        unfold cantidadEn ingresosEn
        by_cases h2 : k1 = k
        · have h3 : ¬it.producto_id = k := fun hh => h1 (hh.trans h2.symm).symm
          simp [List.find?_cons, h2, h3]
        · unfold cantidadEn ingresosEn at ih
          simp only [List.find?_cons, h2, decide_False]
          exact ih

lemma datos_foldl_items (items : List ItemPedido) :
    ∀ (cont : List (String × DatosProducto)) (k : String),
      cantidadEn (items.foldl acumular_item cont) k
        = cantidadEn cont k + cantidad_vendida items k
      ∧ ingresosEn (items.foldl acumular_item cont) k
        = ingresosEn cont k + ingresos_de items k := by
  induction items with
  | nil =>
      intro cont k
      simp [cantidad_vendida, ingresos_de]
  | cons it rest ih =>
      intro cont k
      rw [List.foldl_cons]
      obtain ⟨ihc, ihi⟩ := ih (acumular_item cont it) k
      obtain ⟨hc, hi⟩ := datos_acumular_item cont it k
      rw [ihc, ihi, hc, hi]
      unfold cantidad_vendida ingresos_de
      rw [List.filter_cons]
      by_cases h : it.producto_id = k
      · rw [if_pos h, if_pos h,
          if_pos (show (decide (it.producto_id = k)) = true from by simp [h]),
          List.map_cons, List.map_cons, List.sum_cons, List.sum_cons]
        constructor <;> ring
      · rw [if_neg h, if_neg h,
          if_neg (show ¬(decide (it.producto_id = k)) = true from by simp [h])]
        constructor <;> ring

lemma datos_foldl_pedidos (ps : List Pedido) :
    ∀ (cont : List (String × DatosProducto)) (k : String),
      cantidadEn (ps.foldl (fun c p => p.items.foldl acumular_item c) cont) k
        = cantidadEn cont k + (ps.map (fun p => cantidad_vendida p.items k)).sum
      ∧ ingresosEn (ps.foldl (fun c p => p.items.foldl acumular_item c) cont) k
        = ingresosEn cont k + (ps.map (fun p => ingresos_de p.items k)).sum := by
  induction ps with
  | nil =>
      intro cont k
      simp
  | cons p rest ih =>
      intro cont k
      rw [List.foldl_cons]
      obtain ⟨ihc, ihi⟩ := ih (p.items.foldl acumular_item cont) k
      obtain ⟨hc, hi⟩ := datos_foldl_items p.items cont k
      rw [ihc, ihi, hc, hi]
      simp only [List.map_cons, List.sum_cons]
      constructor <;> ring

lemma contador_productos_spec (pedidos : List Pedido) (k : String) :
    cantidadEn (contador_productos pedidos) k
      = ((pedidos.filter (fun p => p.estado = EstadoPedido.COBRADO)).map
          (fun p => cantidad_vendida p.items k)).sum
    ∧ ingresosEn (contador_productos pedidos) k
      = ((pedidos.filter (fun p => p.estado = EstadoPedido.COBRADO)).map
          (fun p => ingresos_de p.items k)).sum := by
  unfold contador_productos
  rw [listar_cobrados]
  obtain ⟨hc, hi⟩ := datos_foldl_pedidos
    (pedidos.filter (fun p => p.estado = EstadoPedido.COBRADO)) [] k
  rw [hc, hi]
  constructor <;> simp [cantidadEn, ingresosEn]

lemma ordenPorCantidad_trans (a b c : String × DatosProducto)
    (hab : ordenPorCantidad a b = true) (hbc : ordenPorCantidad b c = true) :
    ordenPorCantidad a c = true := by
  simp only [ordenPorCantidad, decide_eq_true_eq] at hab hbc ⊢
  exact le_trans hbc hab

lemma ordenPorCantidad_total (a b : String × DatosProducto) :
    (ordenPorCantidad a b || ordenPorCantidad b a) = true := by
  simp only [ordenPorCantidad, Bool.or_eq_true, decide_eq_true_eq]
  exact le_total _ _

/-- Claim C5: platos_mas_vendidos aggregates only over COBRADO orders
(appending a non-COBRADO order changes nothing, and the accumulation
equals the one over the COBRADO-filtered list), returns entries sorted by
non-increasing accumulated quantity, truncated to at most limite entries;
the sort is stable: restricted to any fixed quantity, the sorted
accumulator lists products exactly in first-encounter order; and the
accumulated quantity and revenue of each product are the sums of item
quantities and item subtotals over the charged orders. -/
theorem claim_C5 (pedidos : List Pedido) (limite : ℕ) :
    (∀ p : Pedido, p.estado ≠ EstadoPedido.COBRADO →
        platos_mas_vendidos (pedidos ++ [p]) limite = platos_mas_vendidos pedidos limite)
    ∧ (contador_productos pedidos
        = contador_productos (pedidos.filter (fun p => p.estado = EstadoPedido.COBRADO)))
    ∧ (platos_mas_vendidos pedidos limite).Pairwise (fun a b => b.2.1 ≤ a.2.1)
    ∧ (platos_mas_vendidos pedidos limite).length ≤ limite
    ∧ (∀ q : ℤ, (productos_ordenados pedidos).filter (fun e => e.2.cantidad = q)
        = (contador_productos pedidos).filter (fun e => e.2.cantidad = q))
    ∧ (∀ k, cantidadEn (contador_productos pedidos) k
        = ((pedidos.filter (fun p => p.estado = EstadoPedido.COBRADO)).map
            (fun p => cantidad_vendida p.items k)).sum)
    ∧ (∀ k, ingresosEn (contador_productos pedidos) k
        = ((pedidos.filter (fun p => p.estado = EstadoPedido.COBRADO)).map
            (fun p => ingresos_de p.items k)).sum) := by
  refine ⟨?_, ?_, ?_, ?_, ?_, fun k => (contador_productos_spec pedidos k).1,
    fun k => (contador_productos_spec pedidos k).2⟩
  · intro p h
    unfold platos_mas_vendidos productos_ordenados
    rw [contador_append_no_cobrado pedidos p h]
  · unfold contador_productos
    rw [listar_cobrados, listar_cobrados, List.filter_filter]
    simp
  · have hsort := List.sorted_mergeSort ordenPorCantidad_trans ordenPorCantidad_total
      (contador_productos pedidos)
    have htake : ((productos_ordenados pedidos).take limite).Pairwise
        (fun a b => ordenPorCantidad a b = true) :=
      List.Pairwise.sublist (List.take_sublist limite _) hsort
    unfold platos_mas_vendidos
    apply htake.map
    intro a b hab
    simp only [ordenPorCantidad, decide_eq_true_eq] at hab
    exact hab
  · unfold platos_mas_vendidos
    rw [List.length_map, List.length_take]
    exact min_le_left _ _
  · intro q
    have hsubl : List.Sublist
        ((contador_productos pedidos).filter (fun e => e.2.cantidad = q))
        (contador_productos pedidos) := List.filter_sublist _
    have hpair : ((contador_productos pedidos).filter (fun e => e.2.cantidad = q)).Pairwise
        (fun a b => ordenPorCantidad a b = true) := by
      apply List.pairwise_of_forall_mem_list
      intro a ha b hb
      have ha2 := (List.mem_filter.mp ha).2
      have hb2 := (List.mem_filter.mp hb).2
      simp only [decide_eq_true_eq] at ha2 hb2
      simp only [ordenPorCantidad, decide_eq_true_eq, ha2, hb2]
      exact le_refl q
    have hstab := List.sublist_mergeSort ordenPorCantidad_trans ordenPorCantidad_total
      hpair hsubl
    have hsub2 := hstab.filter (fun e => e.2.cantidad = q)
    rw [List.filter_filter] at hsub2
    have hidem : ((contador_productos pedidos).filter
        (fun e => decide (e.2.cantidad = q) && decide (e.2.cantidad = q)))
        = (contador_productos pedidos).filter (fun e => e.2.cantidad = q) := by
      simp
    rw [hidem] at hsub2
    have hperm : List.Perm
        (((contador_productos pedidos).mergeSort ordenPorCantidad).filter
          (fun e => e.2.cantidad = q))
        ((contador_productos pedidos).filter (fun e => e.2.cantidad = q)) :=
      (List.mergeSort_perm (contador_productos pedidos) ordenPorCantidad).filter _
    have hlen : ((contador_productos pedidos).filter (fun e => e.2.cantidad = q)).length
        = (((contador_productos pedidos).mergeSort ordenPorCantidad).filter
            (fun e => e.2.cantidad = q)).length := hperm.length_eq.symm
    exact (hsub2.eq_of_length hlen).symm

/-- Two concrete charged orders and one pending order for the witness. -/
def ped_cobrado1 : Pedido :=
  ⟨"q1", "mesa", [⟨"x", "X", 2, 5⟩, ⟨"y", "Y", 2, 1⟩, ⟨"z", "Z", 3, 1⟩],
    EstadoPedido.COBRADO, none, none, none⟩

/-- A pending order that must not count. -/
def ped_pendiente : Pedido :=
  ⟨"q2", "mesa", [⟨"x", "X", 1, 5⟩], EstadoPedido.PENDIENTE, none, none, none⟩

/-- Witness for C5: appending the pending order changes nothing in the
top-sold report of the concrete charged order. -/
theorem claim_C5_witness :
    platos_mas_vendidos [ped_cobrado1, ped_pendiente] 10
      = platos_mas_vendidos [ped_cobrado1] 10 :=
  (claim_C5 [ped_cobrado1] 10).1 ped_pendiente (by decide)

end Pulperia
